import Mathlib

/-!
Shallow embedding of the Hangzhou flood-reporting map application
(`hangzhou_flood_map/app.js`) and proofs of its specified properties.

The application is a single-page map UI.  Its mutable globals
(`floodReports`, `layers.floods`, `formState`, `currentMarker`,
`selectedLocation`, `uploadedPhoto`) together with the DOM-held form
fields (`eventDate`, `eventTime`, `locationDesc`, the photo preview,
the chip groups, the filter controls, the submit button's `disabled`
flag, the report-list container and the stats counters) form the state;
every event handler is embedded as a pure state-transformer.  External
inputs that JavaScript obtains from the environment (`Date.now()`,
`new Date().toISOString()`, the clicked coordinate, the clicked chip,
fetch results) become explicit parameters.

Coordinates are floating-point degrees in the source; no arithmetic is
ever performed on them (they are only stored, compared and echoed), so
they are embedded as integers in units of 10⁻⁴ degrees, an injective
renaming of the concrete values that appear in the program.
-/

namespace FloodMap

/-- A latitude/longitude pair (`e.latlng` / `report.location`). -/
structure LatLng where
  lat : Int
  lng : Int
deriving Repr, DecidableEq

/-- One element of `floodReports` (the object literal built in
`handleFormSubmit` and the demo objects in `addDemoData`).  `depth` and
`situation` are `Option String` because `formState.depth` /
`formState.situation` are `null` until a chip is clicked and the submit
handler copies them verbatim. -/
structure FloodReport where
  id : Nat
  location : LatLng
  date : String
  time : String
  depth : Option String
  situation : Option String
  description : String
  photo : Option String
  timestamp : String
deriving Repr, DecidableEq

/-- A marker on the `layers.floods` layer group, as built by
`addFloodMarker`: its position is the report's location, its icon is
keyed by the report's depth, and `marker.reportData` holds the report. -/
structure FloodMarker where
  pos : LatLng
  iconDepth : Option String
  reportData : FloodReport
deriving Repr, DecidableEq

/-- A `.depth-option` / `.situation-chip` / `.filter-chip` DOM element:
its `data-*` value and whether its `classList` contains `selected`. -/
structure ChipElement where
  value : String
  selected : Bool
deriving Repr, DecidableEq

/-- The global `formState` object. -/
structure FormState where
  location : Option LatLng
  depth : Option String
  situation : Option String
deriving Repr, DecidableEq

/-- The application state: the module-level globals of `app.js` plus the
DOM-held values the handlers read and write. -/
structure AppState where
  floodReports : List FloodReport
  floodsLayer : List FloodMarker
  formState : FormState
  currentMarker : Option LatLng
  selectedLocation : Option LatLng
  uploadedPhoto : Option String
  eventDate : String
  eventTime : String
  locationDesc : String
  photoPreviewShown : Bool
  submitDisabled : Bool
  instructionsVisible : Bool
  depthOptions : List ChipElement
  situationChips : List ChipElement
  activeDepthFilter : String
  filterDateFrom : String
  filterDateTo : String
  reportItems : List FloodReport
  totalReportsStat : Nat
  todayReportsStat : Nat
deriving Repr, DecidableEq

/-- JavaScript truthiness of a nullable string field: `null` and the
empty string are falsy, every other string is truthy. -/
def truthyStr : Option String → Bool
  | none => false
  | some s => !(s == "")

/-- The `validateForm` handler: enable the submit button exactly when
`formState.location && formState.depth && formState.situation && date && time`
is truthy (`location` is an object, hence truthy iff non-null). -/
def validateForm (s : AppState) : AppState :=
  if s.formState.location.isSome && truthyStr s.formState.depth
      && truthyStr s.formState.situation
      && !(s.eventDate == "") && !(s.eventTime == "") then
    { s with submitDisabled := false }
  else
    { s with submitDisabled := true }

/-- The `handleMapClick` handler: replace the temporary marker, record the clicked
coordinate in `selectedLocation` and `formState.location`, hide the
instructions, and re-validate. -/
def handleMapClick (s : AppState) (latlng : LatLng) : AppState :=
  validateForm { s with
    currentMarker := some latlng,
    selectedLocation := some latlng,
    formState := { s.formState with location := some latlng },
    instructionsVisible := false }

/-- The single-select update common to both chip groups: remove
`selected` from every element, then add it to the clicked element
(identified by its index in the `querySelectorAll` node list). -/
def selectOnly (chips : List ChipElement) (i : Nat) : List ChipElement :=
  chips.mapIdx fun j c => { c with selected := j == i }

/-- Handler `handleDepthSelect` for a click on the depth option at index `i`:
single-select the group and copy `this.dataset.depth` into
`formState.depth`, then re-validate. -/
def handleDepthSelect (s : AppState) (i : Nat) : AppState :=
  validateForm { s with
    depthOptions := selectOnly s.depthOptions i,
    formState := { s.formState with
      depth := (s.depthOptions.get? i).map ChipElement.value } }

/-- Handler `handleSituationSelect` for a click on the situation chip at index
`i`. -/
def handleSituationSelect (s : AppState) (i : Nat) : AppState :=
  validateForm { s with
    situationChips := selectOnly s.situationChips i,
    formState := { s.formState with
      situation := (s.situationChips.get? i).map ChipElement.value } }

/-- A user edit of the `eventDate` input: the `change` listener runs
`validateForm`. -/
def editEventDate (s : AppState) (v : String) : AppState :=
  validateForm { s with eventDate := v }

/-- A user edit of the `eventTime` input. -/
def editEventTime (s : AppState) (v : String) : AppState :=
  validateForm { s with eventTime := v }

/-- Completion of `handlePhotoUpload`'s `FileReader`: store the data URI
in `uploadedPhoto` and show the preview. -/
def handlePhotoUpload (s : AppState) (dataUri : String) : AppState :=
  { s with uploadedPhoto := some dataUri, photoPreviewShown := true }

/-- The `setDefaultDateTime` helper: write the current date and time (obtained from
`new Date()`, passed in here) into the two inputs. -/
def setDefaultDateTime (s : AppState) (nowDate nowTime : String) : AppState :=
  { s with eventDate := nowDate, eventTime := nowTime }

/-- The `resetForm` helper: remove the temporary marker, clear `selectedLocation`,
`formState`, the chip selections, the description, the photo and its
preview, disable the submit button, and reset date/time to now. -/
def resetForm (s : AppState) (nowDate nowTime : String) : AppState :=
  setDefaultDateTime { s with
    currentMarker := none,
    selectedLocation := none,
    formState := { location := none, depth := none, situation := none },
    depthOptions := s.depthOptions.map fun c => { c with selected := false },
    situationChips := s.situationChips.map fun c => { c with selected := false },
    locationDesc := "",
    photoPreviewShown := false,
    uploadedPhoto := none,
    submitDisabled := true } nowDate nowTime

/-- The marker `addFloodMarker` builds for a report: positioned at
`report.location`, icon keyed by `report.depth`, `reportData` attached. -/
def mkFloodMarker (r : FloodReport) : FloodMarker :=
  { pos := r.location, iconDepth := r.depth, reportData := r }

/-- The `addFloodMarker` operation: build the marker and add it to `layers.floods`. -/
def addFloodMarker (s : AppState) (r : FloodReport) : AppState :=
  { s with floodsLayer := s.floodsLayer ++ [mkFloodMarker r] }

/-- The `updateStats` refresh: total count, and count of reports whose `date` equals
today's date (`new Date().toISOString().split('T')[0]`, passed in). -/
def updateStats (s : AppState) (today : String) : AppState :=
  { s with
    totalReportsStat := s.floodReports.length,
    todayReportsStat := (s.floodReports.filter fun r => r.date == today).length }

/-- The `updateReportList` refresh: re-render the list container from
`floodReports.slice().reverse()`. -/
def updateReportList (s : AppState) : AppState :=
  { s with reportItems := s.floodReports.reverse }

/-- The `handleFormSubmit` handler: freeze the form into a report whose `id` is
`Date.now()` (`now`) and whose `timestamp` is `new Date().toISOString()`
(`ts`), push it, add its marker, update stats, reset the form (which puts
`nowDate`/`nowTime` back into the date/time inputs), and re-render the
list.  The handler dereferences `formState.location.lat`, which throws a
`TypeError` when `formState.location` is `null`; that abrupt completion
is embedded as `none`. -/
def handleFormSubmit (s : AppState) (now : Nat) (ts nowDate nowTime : String) :
    Option AppState :=
  match s.formState.location with
  | none => none
  | some loc =>
    let report : FloodReport :=
      { id := now,
        location := { lat := loc.lat, lng := loc.lng },
        date := s.eventDate,
        time := s.eventTime,
        depth := s.formState.depth,
        situation := s.formState.situation,
        description := s.locationDesc,
        photo := s.uploadedPhoto,
        timestamp := ts }
    let s1 := { s with floodReports := s.floodReports ++ [report] }
    let s2 := addFloodMarker s1 report
    let s3 := updateStats s2 nowDate
    let s4 := resetForm s3 nowDate nowTime
    some (updateReportList s4)

/-- JavaScript's `<` on two character sequences: lexicographic by
character.  Written as a structurally recursive Boolean so that it
evaluates by kernel reduction (it is proved below to agree with the
mathematical lexicographic order on `String`). -/
def charListLt : List Char → List Char → Bool
  | [], [] => false
  | [], _ :: _ => true
  | _ :: _, [] => false
  | c :: cs, d :: ds =>
    if c < d then true
    else if d < c then false
    else charListLt cs ds

/-- JavaScript's `<` on strings, as used by `report.date < dateFrom` in
`filterReports`. -/
def jsLt (a b : String) : Bool := charListLt a.data b.data

/-- The `show` computation in `filterReports` for one report: `show`
starts `true` and each of the three `if`s may set it to `false`. -/
def reportVisible (depthFilter dateFrom dateTo : String) (r : FloodReport) :
    Bool :=
  let s0 := true
  let s1 := if depthFilter != "all" && r.depth != some depthFilter then false else s0
  let s2 := if dateFrom != "" && jsLt r.date dateFrom then false else s1
  if dateTo != "" && jsLt dateTo r.date then false else s2

/-- The `filterReports` operation: read the active depth chip and the two date inputs,
clear `layers.floods`, then walk `floodReports` re-adding a marker for
every report still visible. -/
def filterReports (s : AppState) : AppState :=
  let depthFilter := s.activeDepthFilter
  let dateFrom := s.filterDateFrom
  let dateTo := s.filterDateTo
  let cleared := { s with floodsLayer := ([] : List FloodMarker) }
  s.floodReports.foldl
    (fun acc r =>
      if reportVisible depthFilter dateFrom dateTo r then addFloodMarker acc r
      else acc)
    cleared

/-- Handler `handleFilterChipClick` on the chip whose `data-depth` is `v`: make
it the active chip and re-filter. -/
def handleFilterChipClick (s : AppState) (v : String) : AppState :=
  filterReports { s with activeDepthFilter := v }

/-- A user edit of the `filterDateFrom` input (its `change` listener runs
`filterReports`). -/
def editFilterDateFrom (s : AppState) (v : String) : AppState :=
  filterReports { s with filterDateFrom := v }

/-- A user edit of the `filterDateTo` input. -/
def editFilterDateTo (s : AppState) (v : String) : AppState :=
  filterReports { s with filterDateTo := v }

/-- The five demo reports seeded by `addDemoData` (`timestamp` is
`new Date().toISOString()` at load time, passed in as `ts`). -/
def demoReports (ts : String) : List FloodReport :=
  [ { id := 1, location := { lat := 302574, lng := 1201583 },
      date := "2025-06-15", time := "08:30", depth := some "moderate",
      situation := some "commute", description := "中河北路与庆春路交叉口",
      photo := none, timestamp := ts },
    { id := 2, location := { lat := 302456, lng := 1201789 },
      date := "2025-06-15", time := "09:15", depth := some "deep",
      situation := some "work", description := "凤起路地铁站附近",
      photo := none, timestamp := ts },
    { id := 3, location := { lat := 302312, lng := 1201456 },
      date := "2025-06-14", time := "16:45", depth := some "shallow",
      situation := some "home", description := "西湖文化广场周边",
      photo := none, timestamp := ts },
    { id := 4, location := { lat := 302689, lng := 1201234 },
      date := "2025-06-14", time := "07:20", depth := some "severe",
      situation := some "commute", description := "文三路与学院路路口",
      photo := none, timestamp := ts },
    { id := 5, location := { lat := 301923, lng := 1202134 },
      date := "2025-06-13", time := "14:30", depth := some "moderate",
      situation := some "other", description := "滨江区江南大道",
      photo := none, timestamp := ts } ]

/-- The `addDemoData` seeding: push each demo report and its marker, then refresh
stats (`today` is the load date) and the list. -/
def addDemoData (s : AppState) (ts today : String) : AppState :=
  let s1 := (demoReports ts).foldl
    (fun acc r => addFloodMarker { acc with floodReports := acc.floodReports ++ [r] } r)
    s
  updateReportList (updateStats s1 today)

/-- The six static GeoJSON layers loaded by `loadGeoJSONData`, in source
order. -/
inductive GeoLayerName
  | boundary
  | roads
  | water
  | parks
  | amenities
  | metro
deriving Repr, DecidableEq

/-- A GeoJSON feature: its `properties` object, as a key/value list. -/
structure GeoFeature where
  props : List (String × String)
deriving Repr, DecidableEq

/-- A parsed GeoJSON document (`data.features`). -/
structure FeatureCollection where
  features : List GeoFeature
deriving Repr, DecidableEq

/-- The outcome of one `fetch(url)`: a rejected promise (network error),
or a response with an HTTP status whose `res.json()` either parses or
throws. -/
inductive FetchOutcome
  | networkError (msg : String)
  | response (status : Nat) (body : Except String FeatureCollection)
deriving Repr

/-- JavaScript `res.ok`: status in the inclusive range 200–299. -/
def resOk (status : Nat) : Bool :=
  decide (200 ≤ status) && decide (status ≤ 299)

/-- A console line emitted by `loadLayer`: the success log or the
`catch` block's error log. -/
inductive LogEntry
  | loaded (name : String)
  | failed (name : String)
deriving Repr, DecidableEq

/-- The `try` block of `loadLayer`: await the fetch, throw on `!res.ok`,
await `res.json()`, render the features onto the target layer group.
Each thrown/rejected error propagates as `Except.error`. -/
def loadLayerBody (fetch : FetchOutcome) (target : List GeoFeature) :
    Except String (List GeoFeature) :=
  match fetch with
  | .networkError msg => .error msg
  | .response status body =>
    if !resOk status then .error ("HTTP " ++ toString status)
    else
      match body with
      | .error msg => .error msg
      | .ok data => .ok (target ++ data.features)

/-- The `loadLayer` helper: run the body; the `catch` block logs the error and
leaves the target layer unchanged instead of re-throwing. -/
def loadLayer (fetch : FetchOutcome) (name : String)
    (target : List GeoFeature) : List GeoFeature × List LogEntry :=
  match loadLayerBody fetch target with
  | .ok rendered => (rendered, [.loaded name])
  | .error _ => (target, [.failed name])

/-- The six layer groups targeted by `loadGeoJSONData`. -/
structure GeoLayers where
  boundary : List GeoFeature
  roads : List GeoFeature
  water : List GeoFeature
  parks : List GeoFeature
  amenities : List GeoFeature
  metro : List GeoFeature
deriving Repr, DecidableEq

/-- Field access by layer name. -/
def layerGet (ls : GeoLayers) : GeoLayerName → List GeoFeature
  | .boundary => ls.boundary
  | .roads => ls.roads
  | .water => ls.water
  | .parks => ls.parks
  | .amenities => ls.amenities
  | .metro => ls.metro

/-- The layer's name string as passed to `loadLayer`. -/
def geoLayerName : GeoLayerName → String
  | .boundary => "boundary"
  | .roads => "roads"
  | .water => "water"
  | .parks => "parks"
  | .amenities => "amenities"
  | .metro => "metro"

/-- The `loadGeoJSONData` loader: the six awaited `loadLayer` calls in source
order, each against its own fetch outcome, with the console log
accumulated. -/
def loadGeoJSONData (fetches : GeoLayerName → FetchOutcome)
    (ls : GeoLayers) : GeoLayers × List LogEntry :=
  let rb := loadLayer (fetches .boundary) "boundary" ls.boundary
  let rr := loadLayer (fetches .roads) "roads" ls.roads
  let rw := loadLayer (fetches .water) "water" ls.water
  let rp := loadLayer (fetches .parks) "parks" ls.parks
  let ra := loadLayer (fetches .amenities) "amenities" ls.amenities
  let rm := loadLayer (fetches .metro) "metro" ls.metro
  ({ boundary := rb.1, roads := rr.1, water := rw.1, parks := rp.1,
     amenities := ra.1, metro := rm.1 },
   rb.2 ++ rr.2 ++ rw.2 ++ rp.2 ++ ra.2 ++ rm.2)

/-- The page-load application state.  The module-level globals of
`app.js` initialise `floodReports = []`, `formState` to all-`null`,
`currentMarker = null`, `selectedLocation = null`, `uploadedPhoto =
null`.
Modelled from the spec: the chip groups and initial control values live
in `index.html`, which is not in the source tree; per the spec's
external-interfaces section the depth selector offers
shallow/moderate/deep/severe, the situation selector
home/commute/work/other, the depth filter starts at its "all" chip with
empty date bounds, and the submit control starts disabled (the gate is
disabled whenever a required field is missing). -/
def initState : AppState :=
  { floodReports := [],
    floodsLayer := [],
    formState := { location := none, depth := none, situation := none },
    currentMarker := none,
    selectedLocation := none,
    uploadedPhoto := none,
    eventDate := "",
    eventTime := "",
    locationDesc := "",
    photoPreviewShown := false,
    submitDisabled := true,
    instructionsVisible := true,
    depthOptions :=
      [ { value := "shallow", selected := false },
        { value := "moderate", selected := false },
        { value := "deep", selected := false },
        { value := "severe", selected := false } ],
    situationChips :=
      [ { value := "home", selected := false },
        { value := "commute", selected := false },
        { value := "work", selected := false },
        { value := "other", selected := false } ],
    activeDepthFilter := "all",
    filterDateFrom := "",
    filterDateTo := "",
    reportItems := [],
    totalReportsStat := 0,
    todayReportsStat := 0 }

/-- The synchronous part of the `DOMContentLoaded` handler that touches
the embedded state: `setDefaultDateTime` then `addDemoData` (`nowDate`,
`nowTime` and `ts` come from `new Date()` at load time). -/
def pageLoad (nowDate nowTime ts : String) : AppState :=
  addDemoData (setDefaultDateTime initState nowDate nowTime) ts nowDate

/-- One complete user interaction that produces a report: click the map,
pick a depth chip and a situation chip, set the date and time inputs,
type a description, optionally have a photo loaded, then submit.  The
clock readings at submit time are `now` (`Date.now()`), `ts`
(`toISOString`), `nowDate`/`nowTime` (for the post-reset inputs). -/
structure Submission where
  loc : LatLng
  depthIdx : Nat
  situationIdx : Nat
  date : String
  time : String
  desc : String
  photo : Option String
  now : Nat
  ts : String
  nowDate : String
  nowTime : String
deriving Repr, DecidableEq

/-- Typing into the description textarea. -/
def editLocationDesc (s : AppState) (v : String) : AppState :=
  { s with locationDesc := v }

/-- The draft's uploaded photo (either `handlePhotoUpload` completed
with a data URI, or it stays `null`). -/
def setUploadedPhoto (s : AppState) (p : Option String) : AppState :=
  { s with uploadedPhoto := p }

/-- Run one submission interaction against a state.  The submit handler
always succeeds here because the map click just set
`formState.location`; the `getD` fallback is unreachable. -/
def fillAndSubmit (s : AppState) (sub : Submission) : AppState :=
  let s1 := handleMapClick s sub.loc
  let s2 := handleDepthSelect s1 sub.depthIdx
  let s3 := handleSituationSelect s2 sub.situationIdx
  let s4 := editEventDate s3 sub.date
  let s5 := editEventTime s4 sub.time
  let s6 := setUploadedPhoto (editLocationDesc s5 sub.desc) sub.photo
  (handleFormSubmit s6 sub.now sub.ts sub.nowDate sub.nowTime).getD s6

/-- A session: a sequence of submission interactions. -/
def session (s : AppState) (subs : List Submission) : AppState :=
  subs.foldl fillAndSubmit s

/-- Zero-padded ISO `YYYY-MM-DD` shape: ten characters, digits in the
year/month/day positions and dashes at indices 4 and 7. -/
def isISODate (s : String) : Bool :=
  match s.data with
  | [y1, y2, y3, y4, h1, m1, m2, h2, d1, d2] =>
    y1.isDigit && y2.isDigit && y3.isDigit && y4.isDigit && h1 == '-'
      && m1.isDigit && m2.isDigit && h2 == '-' && d1.isDigit && d2.isDigit
  | _ => false

/-- Numeric value of a decimal digit character. -/
def digitVal (c : Char) : Nat := c.toNat - 48

/-- The chronological key of a zero-padded ISO date: the number
`YYYYMMDD` read from its digits.  Two valid ISO dates compare
chronologically exactly as these keys compare. -/
def dateVal (s : String) : Nat :=
  match s.data with
  | [y1, y2, y3, y4, _, m1, m2, _, d1, d2] =>
    digitVal y1 * 10000000 + digitVal y2 * 1000000 + digitVal y3 * 100000
      + digitVal y4 * 10000 + digitVal m1 * 1000 + digitVal m2 * 100
      + digitVal d1 * 10 + digitVal d2
  | _ => 0

/-! Section: The validation gate -/

/-- The spec's validation-gate predicate: location, depth, situation,
date and time all set (a string field is set when present and
non-empty; `location` is set when non-null). -/
def allFieldsSet (s : AppState) : Prop :=
  s.formState.location.isSome = true ∧ truthyStr s.formState.depth = true
    ∧ truthyStr s.formState.situation = true
    ∧ s.eventDate ≠ "" ∧ s.eventTime ≠ ""

instance (s : AppState) : Decidable (allFieldsSet s) := by
  unfold allFieldsSet
  infer_instance

theorem allFieldsSet_iff_cond (s : AppState) :
    allFieldsSet s ↔
      (s.formState.location.isSome && truthyStr s.formState.depth
        && truthyStr s.formState.situation
        && !(s.eventDate == "") && !(s.eventTime == "")) = true := by
  simp [allFieldsSet, Bool.and_eq_true, Bool.not_eq_true', and_assoc]

theorem validateForm_enabled_iff (s : AppState) :
    (validateForm s).submitDisabled = false ↔ allFieldsSet s := by
  unfold validateForm
  split
  case isTrue h => simpa [allFieldsSet_iff_cond] using h
  case isFalse h => simpa [allFieldsSet_iff_cond] using h

theorem validateForm_formState (s : AppState) :
    (validateForm s).formState = s.formState := by
  unfold validateForm
  split <;> rfl

theorem validateForm_eventDate (s : AppState) :
    (validateForm s).eventDate = s.eventDate := by
  unfold validateForm
  split <;> rfl

theorem validateForm_eventTime (s : AppState) :
    (validateForm s).eventTime = s.eventTime := by
  unfold validateForm
  split <;> rfl

theorem validateForm_floodReports (s : AppState) :
    (validateForm s).floodReports = s.floodReports := by
  unfold validateForm
  split <;> rfl

theorem validateForm_floodsLayer (s : AppState) :
    (validateForm s).floodsLayer = s.floodsLayer := by
  unfold validateForm
  split <;> rfl

theorem validateForm_depthOptions (s : AppState) :
    (validateForm s).depthOptions = s.depthOptions := by
  unfold validateForm
  split <;> rfl

theorem validateForm_situationChips (s : AppState) :
    (validateForm s).situationChips = s.situationChips := by
  unfold validateForm
  split <;> rfl

theorem validateForm_currentMarker (s : AppState) :
    (validateForm s).currentMarker = s.currentMarker := by
  unfold validateForm
  split <;> rfl

theorem validateForm_uploadedPhoto (s : AppState) :
    (validateForm s).uploadedPhoto = s.uploadedPhoto := by
  unfold validateForm
  split <;> rfl

theorem validateForm_locationDesc (s : AppState) :
    (validateForm s).locationDesc = s.locationDesc := by
  unfold validateForm
  split <;> rfl

theorem validateForm_reportItems (s : AppState) :
    (validateForm s).reportItems = s.reportItems := by
  unfold validateForm
  split <;> rfl

/-- Predicate `allFieldsSet` only looks at `formState`, `eventDate`, `eventTime`,
so `validateForm` does not change its truth value. -/
theorem allFieldsSet_validateForm (s : AppState) :
    allFieldsSet (validateForm s) ↔ allFieldsSet s := by
  unfold allFieldsSet
  rw [validateForm_formState, validateForm_eventDate, validateForm_eventTime]

/-- Every handler that ends in `validateForm` leaves the button enabled
exactly when the gate holds in the resulting state. -/
theorem validateForm_post_gate (s : AppState) :
    (validateForm s).submitDisabled = false ↔ allFieldsSet (validateForm s) := by
  rw [validateForm_enabled_iff, allFieldsSet_validateForm]

theorem handleDepthSelect_location (s : AppState) (i : Nat) :
    (handleDepthSelect s i).formState.location = s.formState.location := by
  unfold handleDepthSelect
  rw [validateForm_formState]

theorem handleSituationSelect_location (s : AppState) (i : Nat) :
    (handleSituationSelect s i).formState.location = s.formState.location := by
  unfold handleSituationSelect
  rw [validateForm_formState]

theorem resetForm_location (s : AppState) (nd nt : String) :
    (resetForm s nd nt).formState.location = none := rfl

theorem resetForm_submitDisabled (s : AppState) (nd nt : String) :
    (resetForm s nd nt).submitDisabled = true := rfl

/-- A state whose `formState.location` is `null` fails the gate. -/
theorem not_allFieldsSet_of_location_none (s : AppState)
    (h : s.formState.location = none) : ¬ allFieldsSet s := by
  intro hall
  have h1 := hall.1
  rw [h] at h1
  simp at h1

/-- C2: after every field-level transition (map click, depth selection,
situation selection, date edit, time edit, form reset), the submit
control is enabled if and only if location, depth, situation, date and
time are all set; in particular, after a form reset followed by only a
depth and a situation selection (no map click), it stays disabled. -/
theorem submit_gate_iff_allFieldsSet (s : AppState) (p : LatLng) (i j : Nat)
    (d t nd nt : String) :
    ((handleMapClick s p).submitDisabled = false
        ↔ allFieldsSet (handleMapClick s p))
    ∧ ((handleDepthSelect s i).submitDisabled = false
        ↔ allFieldsSet (handleDepthSelect s i))
    ∧ ((handleSituationSelect s i).submitDisabled = false
        ↔ allFieldsSet (handleSituationSelect s i))
    ∧ ((editEventDate s d).submitDisabled = false
        ↔ allFieldsSet (editEventDate s d))
    ∧ ((editEventTime s t).submitDisabled = false
        ↔ allFieldsSet (editEventTime s t))
    ∧ ((resetForm s nd nt).submitDisabled = false
        ↔ allFieldsSet (resetForm s nd nt))
    ∧ (handleSituationSelect (handleDepthSelect (resetForm s nd nt) i) j).submitDisabled
        = true := by
  refine ⟨validateForm_post_gate _, validateForm_post_gate _,
    validateForm_post_gate _, validateForm_post_gate _,
    validateForm_post_gate _, ?_, ?_⟩
  · constructor
    · intro h
      rw [resetForm_submitDisabled] at h
      exact absurd h (by simp)
    · intro h
      exact absurd h (not_allFieldsSet_of_location_none _ (resetForm_location s nd nt))
  · have hloc : (handleSituationSelect (handleDepthSelect (resetForm s nd nt) i)
        j).formState.location = none := by
      rw [handleSituationSelect_location, handleDepthSelect_location,
        resetForm_location]
    have hdis := not_allFieldsSet_of_location_none _ hloc
    have hiff : (handleSituationSelect (handleDepthSelect (resetForm s nd nt) i)
          j).submitDisabled = false
        ↔ allFieldsSet (handleSituationSelect (handleDepthSelect (resetForm s nd nt) i) j) :=
      validateForm_post_gate _
    cases hx : (handleSituationSelect (handleDepthSelect (resetForm s nd nt) i)
        j).submitDisabled with
    | true => rfl
    | false => exact absurd (hiff.mp hx) hdis

/-! Section: Submission -/

/-- C1: for every valid submission (the validation gate holds, so in
particular a location has been clicked), `handleFormSubmit` succeeds,
grows `floodReports` by exactly one, the appended report's location is
the submitted coordinate, and a flood marker at that coordinate is
appended to the floods layer. -/
theorem submit_appends_report_and_marker (s : AppState) (now : Nat)
    (ts nd nt : String) (loc : LatLng)
    (hloc : s.formState.location = some loc) (hgate : allFieldsSet s) :
    ∃ s' : AppState, handleFormSubmit s now ts nd nt = some s'
      ∧ s'.floodReports.length = s.floodReports.length + 1
      ∧ ∃ r : FloodReport, s'.floodReports = s.floodReports ++ [r]
          ∧ r.location = loc
          ∧ s'.floodsLayer = s.floodsLayer ++ [mkFloodMarker r]
          ∧ (mkFloodMarker r).pos = loc := by
  unfold handleFormSubmit
  rw [hloc]
  refine ⟨_, rfl, by simp [addFloodMarker, updateStats, resetForm,
    setDefaultDateTime, updateReportList], ?_⟩
  exact ⟨_, rfl, rfl, rfl, rfl⟩

/-- C9: after every successful submission the form is reset: the
temporary marker is removed, the draft state is cleared, photo and
preview are cleared, date/time go back to "now", and the submit control
is disabled again. -/
theorem submit_resets_form (s : AppState) (now : Nat) (ts nd nt : String)
    (loc : LatLng) (hloc : s.formState.location = some loc)
    (hgate : allFieldsSet s) :
    ∃ s' : AppState, handleFormSubmit s now ts nd nt = some s'
      ∧ s'.currentMarker = none
      ∧ s'.formState
          = { location := none, depth := none, situation := none }
      ∧ s'.uploadedPhoto = none
      ∧ s'.photoPreviewShown = false
      ∧ s'.eventDate = nd
      ∧ s'.eventTime = nt
      ∧ s'.submitDisabled = true := by
  unfold handleFormSubmit
  rw [hloc]
  exact ⟨_, rfl, rfl, rfl, rfl, rfl, rfl, rfl, rfl⟩

/-- A concrete state with a valid draft: map click at (30.25, 120.15),
depth chip 1 (`moderate`), situation chip 0 (`home`), date and time
filled in. -/
def witnessState : AppState :=
  editEventTime (editEventDate (handleSituationSelect (handleDepthSelect
    (handleMapClick initState { lat := 302500, lng := 1201500 }) 1) 0)
    "2025-10-11") "09:00"

theorem submit_appends_report_and_marker_witness :
    witnessState.formState.location = some { lat := 302500, lng := 1201500 }
    ∧ allFieldsSet witnessState
    ∧ ∃ s' : AppState, handleFormSubmit witnessState 99 "ts" "2025-10-11" "09:05" = some s'
        ∧ s'.floodReports.length = witnessState.floodReports.length + 1
        ∧ ∃ r : FloodReport, s'.floodReports = witnessState.floodReports ++ [r]
            ∧ r.location = { lat := 302500, lng := 1201500 }
            ∧ s'.floodsLayer = witnessState.floodsLayer ++ [mkFloodMarker r]
            ∧ (mkFloodMarker r).pos = { lat := 302500, lng := 1201500 } :=
  ⟨by decide, by decide,
    submit_appends_report_and_marker witnessState 99 "ts" "2025-10-11" "09:05"
      { lat := 302500, lng := 1201500 } (by decide) (by decide)⟩

theorem submit_resets_form_witness :
    witnessState.formState.location = some { lat := 302500, lng := 1201500 }
    ∧ allFieldsSet witnessState
    ∧ ∃ s' : AppState, handleFormSubmit witnessState 99 "ts" "2025-10-11" "09:05" = some s'
        ∧ s'.currentMarker = none
        ∧ s'.formState
            = { location := none, depth := none, situation := none }
        ∧ s'.uploadedPhoto = none
        ∧ s'.photoPreviewShown = false
        ∧ s'.eventDate = "2025-10-11"
        ∧ s'.eventTime = "09:05"
        ∧ s'.submitDisabled = true :=
  ⟨by decide, by decide,
    submit_resets_form witnessState 99 "ts" "2025-10-11" "09:05"
      { lat := 302500, lng := 1201500 } (by decide) (by decide)⟩

/-! Section: Filtering -/

theorem addFloodMarker_floodsLayer (s : AppState) (r : FloodReport) :
    (addFloodMarker s r).floodsLayer = s.floodsLayer ++ [mkFloodMarker r] := rfl

theorem addFloodMarker_floodReports (s : AppState) (r : FloodReport) :
    (addFloodMarker s r).floodReports = s.floodReports := rfl

theorem addFloodMarker_reportItems (s : AppState) (r : FloodReport) :
    (addFloodMarker s r).reportItems = s.reportItems := rfl

theorem filterFold_floodsLayer (p : FloodReport → Bool)
    (reports : List FloodReport) (acc : AppState) :
    ((reports.foldl (fun a r => if p r then addFloodMarker a r else a) acc).floodsLayer
        = acc.floodsLayer ++ (reports.filter p).map mkFloodMarker)
    ∧ ((reports.foldl (fun a r => if p r then addFloodMarker a r else a) acc).floodReports
        = acc.floodReports)
    ∧ ((reports.foldl (fun a r => if p r then addFloodMarker a r else a) acc).reportItems
        = acc.reportItems) := by
  induction reports generalizing acc with
  | nil => simp
  | cons r rs ih =>
    by_cases h : p r
    · obtain ⟨h1, h2, h3⟩ := ih (addFloodMarker acc r)
      rw [List.foldl_cons, if_pos h, List.filter_cons, if_pos h]
      refine ⟨?_, ?_, ?_⟩
      · rw [h1, addFloodMarker_floodsLayer, List.map_cons, List.append_assoc,
          List.singleton_append]
      · rw [h2, addFloodMarker_floodReports]
      · rw [h3, addFloodMarker_reportItems]
    · rw [List.foldl_cons, if_neg h, List.filter_cons, if_neg h]
      exact ih acc

/-- The spec's filter criterion, in its words: depth equals the selected
depth unless the selection is "all"; `dateFrom ≤ report.date` unless
`dateFrom` is empty; `report.date ≤ dateTo` unless `dateTo` is empty
(both bounds inclusive, AND semantics). -/
def specMatches (depthFilter dateFrom dateTo : String) (r : FloodReport) :
    Prop :=
  (depthFilter = "all" ∨ r.depth = some depthFilter)
    ∧ (dateFrom = "" ∨ dateFrom ≤ r.date)
    ∧ (dateTo = "" ∨ r.date ≤ dateTo)

theorem charListLt_iff (l1 : List Char) :
    ∀ l2 : List Char, charListLt l1 l2 = true ↔ l1 < l2 := by
  induction l1 with
  | nil =>
    intro l2
    cases l2 with
    | nil =>
      simp only [charListLt, Bool.false_eq_true, false_iff]
      exact lt_irrefl ([] : List Char)
    | cons d ds =>
      simp only [charListLt, true_iff]
      exact List.nil_lt_cons d ds
  | cons c cs ih =>
    intro l2
    cases l2 with
    | nil =>
      simp only [charListLt, Bool.false_eq_true, false_iff]
      exact List.Lex.not_nil_right _ _
    | cons d ds =>
      by_cases hcd : c < d
      · simp only [charListLt, if_pos hcd, true_iff]
        exact List.Lex.rel hcd
      · by_cases hdc : d < c
        · simp only [charListLt, if_neg hcd, if_pos hdc, Bool.false_eq_true,
            false_iff]
          intro h
          cases h with
          | rel h1 => exact hcd h1
          | cons h1 => exact hdc.false
        · have heq : c = d := le_antisymm (not_lt.mp hdc) (not_lt.mp hcd)
          subst heq
          simp only [charListLt, if_neg hcd, if_neg hdc]
          rw [ih ds]
          exact Iff.symm List.Lex.cons_iff

/-- The program's string comparison is exactly the lexicographic strict
order on strings. -/
theorem jsLt_iff_lt (a b : String) : jsLt a b = true ↔ a < b := by
  rw [String.lt_iff_toList_lt]
  exact charListLt_iff a.data b.data

theorem reportVisible_iff_specMatches (df dfrom dto : String)
    (r : FloodReport) :
    reportVisible df dfrom dto r = true ↔ specMatches df dfrom dto r := by
  simp only [reportVisible, specMatches, Bool.and_eq_true, bne_iff_ne,
    jsLt_iff_lt]
  split_ifs with h1 h2 h3 <;>
    simp only [Bool.false_eq_true, false_iff, true_iff, not_and, not_or,
      ← not_lt] <;>
    tauto

theorem reportVisible_all_empty (r : FloodReport) :
    reportVisible "all" "" "" r = true := by
  simp [reportVisible]

/-- C3: `filterReports` rebuilds the floods layer from scratch so that
it holds exactly one marker per stored report matching the spec's
conjunction of criteria, in store order; with depth "all" and both date
bounds empty every stored report's marker is present. -/
theorem filterReports_rebuilds_markers (s : AppState) :
    ((filterReports s).floodsLayer
        = ((s.floodReports.filter fun r =>
              reportVisible s.activeDepthFilter s.filterDateFrom s.filterDateTo r).map
            mkFloodMarker))
    ∧ (∀ r : FloodReport,
        reportVisible s.activeDepthFilter s.filterDateFrom s.filterDateTo r = true
          ↔ specMatches s.activeDepthFilter s.filterDateFrom s.filterDateTo r)
    ∧ ((filterReports { s with
          activeDepthFilter := "all",
          filterDateFrom := "",
          filterDateTo := "" }).floodsLayer
        = s.floodReports.map mkFloodMarker) := by
  refine ⟨?_, fun r => reportVisible_iff_specMatches _ _ _ r, ?_⟩
  · have h := (filterFold_floodsLayer
      (reportVisible s.activeDepthFilter s.filterDateFrom s.filterDateTo)
      s.floodReports { s with floodsLayer := ([] : List FloodMarker) }).1
    unfold filterReports
    simpa using h
  · have h := (filterFold_floodsLayer (reportVisible "all" "" "")
      s.floodReports { s with
        activeDepthFilter := "all",
        filterDateFrom := "",
        filterDateTo := "",
        floodsLayer := ([] : List FloodMarker) }).1
    unfold filterReports
    simp only [List.nil_append] at h
    have hfilter : s.floodReports.filter (reportVisible "all" "" "") = s.floodReports :=
      List.filter_eq_self.mpr fun r _ => reportVisible_all_empty r
    rw [hfilter] at h
    simpa using h

/-- C8: `filterReports` never touches the report store or the rendered
report list; it only changes which markers are in the floods layer. -/
theorem filterReports_preserves_store_and_list (s : AppState) :
    (filterReports s).floodReports = s.floodReports
    ∧ (filterReports s).reportItems = s.reportItems := by
  unfold filterReports
  exact ⟨(filterFold_floodsLayer _ _ _).2.1, (filterFold_floodsLayer _ _ _).2.2⟩

/-- C6: running the filter with depth "severe", dateFrom "2025-06-14",
dateTo "2025-06-15" over exactly the five seeded demo reports leaves
exactly one marker in the floods layer: the one for demo report 4
(severe, 2025-06-14). -/
theorem demo_filter_severe_window :
    (editFilterDateTo (editFilterDateFrom (handleFilterChipClick
        (pageLoad "2025-10-11" "12:00" "ts0") "severe") "2025-06-14")
        "2025-06-15").floodsLayer
      = [mkFloodMarker
          { id := 4,
            location := { lat := 302689, lng := 1201234 },
            date := "2025-06-14",
            time := "07:20",
            depth := some "severe",
            situation := some "commute",
            description := "文三路与学院路路口",
            photo := none,
            timestamp := "ts0" }] := by
  decide

/-! Section: Chip groups -/

theorem selectOnly_get? (chips : List ChipElement) (i j : Nat) :
    (selectOnly chips i).get? j
      = (chips.get? j).map fun c => { c with selected := j == i } := by
  unfold selectOnly
  by_cases hj : j < chips.length
  · have hj' : j < (chips.mapIdx fun k c => { c with selected := k == i }).length := by
      simpa [List.length_mapIdx] using hj
    rw [List.get?_eq_get hj, List.get?_eq_get hj']
    simp [List.get_mapIdx]
  · have hj1 : chips.length ≤ j := Nat.le_of_not_lt hj
    have hj2 : (chips.mapIdx fun k c => { c with selected := k == i }).length ≤ j := by
      simpa [List.length_mapIdx] using hj1
    rw [List.get?_eq_none.mpr hj1, List.get?_eq_none.mpr hj2]
    rfl

theorem selectOnly_selected_iff (chips : List ChipElement) (i j : Nat)
    (e : ChipElement) (he : (selectOnly chips i).get? j = some e) :
    e.selected = true ↔ j = i := by
  rw [selectOnly_get?] at he
  obtain ⟨c0, hc0, rfl⟩ := Option.map_eq_some'.mp he
  simp

theorem handleDepthSelect_depthOptions (s : AppState) (i : Nat) :
    (handleDepthSelect s i).depthOptions = selectOnly s.depthOptions i := by
  unfold handleDepthSelect
  rw [validateForm_depthOptions]

theorem handleSituationSelect_situationChips (s : AppState) (i : Nat) :
    (handleSituationSelect s i).situationChips = selectOnly s.situationChips i := by
  unfold handleSituationSelect
  rw [validateForm_situationChips]

theorem handleDepthSelect_depth (s : AppState) (i : Nat) :
    (handleDepthSelect s i).formState.depth
      = (s.depthOptions.get? i).map ChipElement.value := by
  unfold handleDepthSelect
  rw [validateForm_formState]

theorem handleSituationSelect_situation (s : AppState) (i : Nat) :
    (handleSituationSelect s i).formState.situation
      = (s.situationChips.get? i).map ChipElement.value := by
  unfold handleSituationSelect
  rw [validateForm_formState]

/-- C7: a depth-chip (situation-chip) click deselects every other
option of its group and marks exactly the clicked one, and the
corresponding `formState` field becomes the clicked option's value; at
most one element of the group carries `.selected` afterwards. -/
theorem chip_selection_single_select (s : AppState) (i k : Nat)
    (c d : ChipElement)
    (hc : s.depthOptions.get? i = some c)
    (hd : s.situationChips.get? k = some d) :
    (∀ j e, (handleDepthSelect s i).depthOptions.get? j = some e →
        (e.selected = true ↔ j = i))
    ∧ (handleDepthSelect s i).formState.depth = some c.value
    ∧ (∀ j₁ j₂ e₁ e₂,
        (handleDepthSelect s i).depthOptions.get? j₁ = some e₁ →
        (handleDepthSelect s i).depthOptions.get? j₂ = some e₂ →
        e₁.selected = true → e₂.selected = true → j₁ = j₂)
    ∧ (∀ j e, (handleSituationSelect s k).situationChips.get? j = some e →
        (e.selected = true ↔ j = k))
    ∧ (handleSituationSelect s k).formState.situation = some d.value
    ∧ (∀ j₁ j₂ e₁ e₂,
        (handleSituationSelect s k).situationChips.get? j₁ = some e₁ →
        (handleSituationSelect s k).situationChips.get? j₂ = some e₂ →
        e₁.selected = true → e₂.selected = true → j₁ = j₂) := by
  have hD : ∀ j e, (handleDepthSelect s i).depthOptions.get? j = some e →
      (e.selected = true ↔ j = i) := by
    intro j e he
    rw [handleDepthSelect_depthOptions] at he
    exact selectOnly_selected_iff _ _ _ _ he
  have hS : ∀ j e, (handleSituationSelect s k).situationChips.get? j = some e →
      (e.selected = true ↔ j = k) := by
    intro j e he
    rw [handleSituationSelect_situationChips] at he
    exact selectOnly_selected_iff _ _ _ _ he
  refine ⟨hD, ?_, ?_, hS, ?_, ?_⟩
  · rw [handleDepthSelect_depth, hc]
    rfl
  · intro j₁ j₂ e₁ e₂ h1 h2 hs1 hs2
    rw [(hD j₁ e₁ h1).mp hs1, (hD j₂ e₂ h2).mp hs2]
  · rw [handleSituationSelect_situation, hd]
    rfl
  · intro j₁ j₂ e₁ e₂ h1 h2 hs1 hs2
    rw [(hS j₁ e₁ h1).mp hs1, (hS j₂ e₂ h2).mp hs2]

theorem chip_selection_single_select_witness :
    initState.depthOptions.get? 1 = some { value := "moderate", selected := false }
    ∧ initState.situationChips.get? 2 = some { value := "work", selected := false }
    ∧ ((∀ j e, (handleDepthSelect initState 1).depthOptions.get? j = some e →
          (e.selected = true ↔ j = 1))
      ∧ (handleDepthSelect initState 1).formState.depth = some "moderate"
      ∧ (∀ j₁ j₂ e₁ e₂,
          (handleDepthSelect initState 1).depthOptions.get? j₁ = some e₁ →
          (handleDepthSelect initState 1).depthOptions.get? j₂ = some e₂ →
          e₁.selected = true → e₂.selected = true → j₁ = j₂)
      ∧ (∀ j e, (handleSituationSelect initState 2).situationChips.get? j = some e →
          (e.selected = true ↔ j = 2))
      ∧ (handleSituationSelect initState 2).formState.situation = some "work"
      ∧ (∀ j₁ j₂ e₁ e₂,
          (handleSituationSelect initState 2).situationChips.get? j₁ = some e₁ →
          (handleSituationSelect initState 2).situationChips.get? j₂ = some e₂ →
          e₁.selected = true → e₂.selected = true → j₁ = j₂)) :=
  ⟨by decide, by decide,
    chip_selection_single_select initState 1 2
      { value := "moderate", selected := false }
      { value := "work", selected := false } (by decide) (by decide)⟩

/-! Section: Layer loading -/

theorem loadGeoJSONData_component (fetches : GeoLayerName → FetchOutcome)
    (ls : GeoLayers) (j : GeoLayerName) :
    layerGet (loadGeoJSONData fetches ls).1 j
      = (loadLayer (fetches j) (geoLayerName j) (layerGet ls j)).1 := by
  cases j <;> rfl

/-- C4: a fetch failure (network error, non-2xx status or parse error)
for one of the six static layers is caught and logged inside that
layer's load, leaves that layer unchanged, and does not affect what any
of the other five layers render. -/
theorem layer_load_failure_isolated (fetches : GeoLayerName → FetchOutcome)
    (ls : GeoLayers) (i : GeoLayerName) (msg : String)
    (hfail : loadLayerBody (fetches i) (layerGet ls i) = .error msg) :
    (LogEntry.failed (geoLayerName i) ∈ (loadGeoJSONData fetches ls).2)
    ∧ (layerGet (loadGeoJSONData fetches ls).1 i = layerGet ls i)
    ∧ (∀ j : GeoLayerName, j ≠ i →
        layerGet (loadGeoJSONData fetches ls).1 j
          = (loadLayer (fetches j) (geoLayerName j) (layerGet ls j)).1)
    ∧ (∀ j : GeoLayerName, j ≠ i → ∀ rendered : List GeoFeature,
        loadLayerBody (fetches j) (layerGet ls j) = .ok rendered →
        layerGet (loadGeoJSONData fetches ls).1 j = rendered) := by
  refine ⟨?_, ?_, fun j _ => loadGeoJSONData_component fetches ls j, ?_⟩
  · cases i <;>
      · simp only [layerGet, geoLayerName] at hfail ⊢
        simp [loadGeoJSONData, loadLayer, hfail]
  · rw [loadGeoJSONData_component]
    unfold loadLayer
    rw [hfail]
  · intro j hj rendered hok
    rw [loadGeoJSONData_component]
    unfold loadLayer
    rw [hok]

/-- A run in which the water layer's fetch rejects and the other five
layers fetch and parse successfully. -/
def witnessFetches : GeoLayerName → FetchOutcome
  | .water => .networkError "connection reset"
  | _ => .response 200 (.ok { features := [{ props := [("name", "x")] }] })

def emptyGeoLayers : GeoLayers :=
  { boundary := [], roads := [], water := [], parks := [], amenities := [],
    metro := [] }

theorem layer_load_failure_isolated_witness :
    loadLayerBody (witnessFetches .water) (layerGet emptyGeoLayers .water)
        = .error "connection reset"
    ∧ ((LogEntry.failed (geoLayerName .water)
          ∈ (loadGeoJSONData witnessFetches emptyGeoLayers).2)
      ∧ (layerGet (loadGeoJSONData witnessFetches emptyGeoLayers).1 .water
          = layerGet emptyGeoLayers .water)
      ∧ (∀ j : GeoLayerName, j ≠ .water →
          layerGet (loadGeoJSONData witnessFetches emptyGeoLayers).1 j
            = (loadLayer (witnessFetches j) (geoLayerName j)
                (layerGet emptyGeoLayers j)).1)
      ∧ (∀ j : GeoLayerName, j ≠ .water → ∀ rendered : List GeoFeature,
          loadLayerBody (witnessFetches j) (layerGet emptyGeoLayers j)
              = .ok rendered →
          layerGet (loadGeoJSONData witnessFetches emptyGeoLayers).1 j
            = rendered)) :=
  ⟨rfl, layer_load_failure_isolated witnessFetches emptyGeoLayers .water
    "connection reset" rfl⟩

/-! Section: Report ids over a session -/

theorem handleMapClick_formState_location (s : AppState) (p : LatLng) :
    (handleMapClick s p).formState.location = some p := by
  unfold handleMapClick
  rw [validateForm_formState]

theorem editEventDate_formState (s : AppState) (v : String) :
    (editEventDate s v).formState = s.formState := by
  unfold editEventDate
  rw [validateForm_formState]

theorem editEventTime_formState (s : AppState) (v : String) :
    (editEventTime s v).formState = s.formState := by
  unfold editEventTime
  rw [validateForm_formState]

theorem handleMapClick_floodReports (s : AppState) (p : LatLng) :
    (handleMapClick s p).floodReports = s.floodReports := by
  unfold handleMapClick
  rw [validateForm_floodReports]

theorem handleDepthSelect_floodReports (s : AppState) (i : Nat) :
    (handleDepthSelect s i).floodReports = s.floodReports := by
  unfold handleDepthSelect
  rw [validateForm_floodReports]

theorem handleSituationSelect_floodReports (s : AppState) (i : Nat) :
    (handleSituationSelect s i).floodReports = s.floodReports := by
  unfold handleSituationSelect
  rw [validateForm_floodReports]

theorem editEventDate_floodReports (s : AppState) (v : String) :
    (editEventDate s v).floodReports = s.floodReports := by
  unfold editEventDate
  rw [validateForm_floodReports]

theorem editEventTime_floodReports (s : AppState) (v : String) :
    (editEventTime s v).floodReports = s.floodReports := by
  unfold editEventTime
  rw [validateForm_floodReports]

/-- The prepared state of one submission interaction still has the
clicked coordinate as its draft location. -/
theorem prepared_formState_location (s : AppState) (sub : Submission) :
    (setUploadedPhoto (editLocationDesc (editEventTime (editEventDate
        (handleSituationSelect (handleDepthSelect (handleMapClick s sub.loc)
          sub.depthIdx) sub.situationIdx) sub.date) sub.time) sub.desc)
        sub.photo).formState.location = some sub.loc := by
  show (editEventTime (editEventDate (handleSituationSelect (handleDepthSelect
      (handleMapClick s sub.loc) sub.depthIdx) sub.situationIdx) sub.date)
      sub.time).formState.location = some sub.loc
  rw [editEventTime_formState, editEventDate_formState,
    handleSituationSelect_location, handleDepthSelect_location,
    handleMapClick_formState_location]

theorem prepared_floodReports (s : AppState) (sub : Submission) :
    (setUploadedPhoto (editLocationDesc (editEventTime (editEventDate
        (handleSituationSelect (handleDepthSelect (handleMapClick s sub.loc)
          sub.depthIdx) sub.situationIdx) sub.date) sub.time) sub.desc)
        sub.photo).floodReports = s.floodReports := by
  show (editEventTime (editEventDate (handleSituationSelect (handleDepthSelect
      (handleMapClick s sub.loc) sub.depthIdx) sub.situationIdx) sub.date)
      sub.time).floodReports = s.floodReports
  rw [editEventTime_floodReports, editEventDate_floodReports,
    handleSituationSelect_floodReports, handleDepthSelect_floodReports,
    handleMapClick_floodReports]

/-- A successful submit appends a report whose id is the `Date.now()`
reading. -/
theorem handleFormSubmit_ids (s : AppState) (now : Nat) (ts nd nt : String)
    (loc : LatLng) (hloc : s.formState.location = some loc) :
    ∃ s' : AppState, handleFormSubmit s now ts nd nt = some s'
      ∧ s'.floodReports.map FloodReport.id
          = s.floodReports.map FloodReport.id ++ [now] := by
  unfold handleFormSubmit
  rw [hloc]
  exact ⟨_, rfl, by
    simp [updateReportList, resetForm, setDefaultDateTime, updateStats,
      addFloodMarker]⟩

theorem fillAndSubmit_ids (s : AppState) (sub : Submission) :
    (fillAndSubmit s sub).floodReports.map FloodReport.id
      = s.floodReports.map FloodReport.id ++ [sub.now] := by
  simp only [fillAndSubmit]
  obtain ⟨s', heq, hmap⟩ := handleFormSubmit_ids _ sub.now sub.ts sub.nowDate
    sub.nowTime sub.loc (prepared_formState_location s sub)
  rw [heq, Option.getD_some, hmap, prepared_floodReports]

theorem session_ids (subs : List Submission) :
    ∀ s : AppState, (session s subs).floodReports.map FloodReport.id
      = s.floodReports.map FloodReport.id ++ subs.map Submission.now := by
  induction subs with
  | nil =>
    intro s
    simp [session]
  | cons sub rest ih =>
    intro s
    show (session (fillAndSubmit s sub) rest).floodReports.map FloodReport.id = _
    rw [ih (fillAndSubmit s sub), fillAndSubmit_ids]
    simp

theorem demoFold_floodReports (rs : List FloodReport) :
    ∀ acc : AppState,
      (rs.foldl (fun acc r =>
        addFloodMarker { acc with floodReports := acc.floodReports ++ [r] } r)
        acc).floodReports = acc.floodReports ++ rs := by
  induction rs with
  | nil =>
    intro acc
    simp
  | cons r rest ih =>
    intro acc
    rw [List.foldl_cons, ih]
    simp [addFloodMarker]

theorem updateStats_floodReports (s : AppState) (today : String) :
    (updateStats s today).floodReports = s.floodReports := rfl

theorem updateReportList_floodReports (s : AppState) :
    (updateReportList s).floodReports = s.floodReports := rfl

theorem addDemoData_floodReports (s : AppState) (ts today : String) :
    (addDemoData s ts today).floodReports = s.floodReports ++ demoReports ts := by
  unfold addDemoData
  rw [updateReportList_floodReports, updateStats_floodReports,
    demoFold_floodReports]

theorem pageLoad_ids (nowDate nowTime ts : String) :
    (pageLoad nowDate nowTime ts).floodReports.map FloodReport.id
      = [1, 2, 3, 4, 5] := by
  unfold pageLoad
  rw [addDemoData_floodReports]
  simp [setDefaultDateTime, initState, demoReports]

/-- C5 counterexample: the claim fails as stated.  A session in which
`Date.now()` returns 1 at the single submission (the value the first
seeded demo report uses as its id) produces two stored reports with
id 1, so ids are not collision-free for arbitrary sequences of
submissions. -/
theorem report_ids_collide_on_repeated_clock :
    ¬ ((session (pageLoad "2025-10-11" "12:00" "ts0")
        [{ loc := { lat := 1, lng := 2 },
           depthIdx := 1,
           situationIdx := 2,
           date := "2025-10-11",
           time := "10:00",
           desc := "",
           photo := none,
           now := 1,
           ts := "t1",
           nowDate := "2025-10-11",
           nowTime := "10:01" }]).floodReports.map FloodReport.id).Nodup := by
  decide

/-- C5 (amended): every submitted report's id is exactly the
`Date.now()` reading at its submission; when those readings are
strictly increasing over the session and all exceed 5 (the largest
seeded demo id), no two reports in the store share an id. -/
theorem report_ids_unique_of_monotone_clock (subs : List Submission)
    (nowDate nowTime ts : String)
    (hmono : (subs.map Submission.now).Chain' (· < ·))
    (hbig : ∀ sub ∈ subs, 5 < sub.now) :
    ((session (pageLoad nowDate nowTime ts) subs).floodReports.map FloodReport.id
        = [1, 2, 3, 4, 5] ++ subs.map Submission.now)
    ∧ ((session (pageLoad nowDate nowTime ts) subs).floodReports.map
        FloodReport.id).Nodup := by
  have hids := session_ids subs (pageLoad nowDate nowTime ts)
  rw [pageLoad_ids] at hids
  refine ⟨hids, ?_⟩
  rw [hids, List.nodup_append]
  refine ⟨by decide, ?_, ?_⟩
  · exact (List.chain'_iff_pairwise.mp hmono).imp fun h => Nat.ne_of_lt h
  · intro a ha hb
    obtain ⟨sub, hsub, hnow⟩ := List.mem_map.mp hb
    have h5 := hbig sub hsub
    rw [hnow] at h5
    simp only [List.mem_cons, List.not_mem_nil, or_false] at ha
    rcases ha with h | h | h | h | h <;> omega

def witnessSubs : List Submission :=
  [{ loc := { lat := 301000, lng := 1201000 },
     depthIdx := 0,
     situationIdx := 1,
     date := "2025-10-11",
     time := "10:00",
     desc := "",
     photo := none,
     now := 100,
     ts := "t1",
     nowDate := "2025-10-11",
     nowTime := "10:01" },
   { loc := { lat := 302000, lng := 1202000 },
     depthIdx := 3,
     situationIdx := 2,
     date := "2025-10-11",
     time := "11:00",
     desc := "x",
     photo := none,
     now := 200,
     ts := "t2",
     nowDate := "2025-10-11",
     nowTime := "11:01" }]

theorem report_ids_unique_of_monotone_clock_witness :
    ((witnessSubs.map Submission.now).Chain' (· < ·))
    ∧ (∀ sub ∈ witnessSubs, 5 < sub.now)
    ∧ (((session (pageLoad "2025-10-11" "12:00" "ts0") witnessSubs).floodReports.map
          FloodReport.id = [1, 2, 3, 4, 5] ++ witnessSubs.map Submission.now)
      ∧ ((session (pageLoad "2025-10-11" "12:00" "ts0") witnessSubs).floodReports.map
          FloodReport.id).Nodup) :=
  ⟨by simp [witnessSubs], by decide,
    report_ids_unique_of_monotone_clock witnessSubs "2025-10-11" "12:00" "ts0"
      (by simp [witnessSubs]) (by decide)⟩

/-! Section: Lexicographic date comparison -/

theorem char_lt_iff_toNat (c d : Char) : c < d ↔ c.toNat < d.toNat := Iff.rfl

theorem char_le_iff_toNat (c d : Char) : c ≤ d ↔ c.toNat ≤ d.toNat := Iff.rfl

theorem char_eq_iff_toNat (c d : Char) : c = d ↔ c.toNat = d.toNat := by
  constructor
  · intro h
    rw [h]
  · intro h
    exact le_antisymm ((char_le_iff_toNat c d).mpr h.le)
      ((char_le_iff_toNat d c).mpr h.ge)

theorem isDigit_toNat_bounds (c : Char) (h : c.isDigit = true) :
    48 ≤ c.toNat ∧ c.toNat ≤ 57 := by
  unfold Char.isDigit at h
  simp only [Bool.and_eq_true, decide_eq_true_eq] at h
  exact ⟨h.1, h.2⟩

theorem lex_cons_iff (c d : Char) (cs ds : List Char) :
    (c :: cs) < (d :: ds) ↔ c < d ∨ (c = d ∧ cs < ds) := by
  constructor
  · intro h
    cases h with
    | rel h1 => exact Or.inl h1
    | cons h1 => exact Or.inr ⟨rfl, h1⟩
  · intro h
    rcases h with h1 | ⟨rfl, h2⟩
    · exact List.Lex.rel h1
    · exact List.Lex.cons h2

theorem digits8_lex_iff (x1 x2 x3 x4 x5 x6 x7 x8 y1 y2 y3 y4 y5 y6 y7 y8 : Nat)
    (hx1 : 48 ≤ x1) (hx1' : x1 ≤ 57) (hx2 : 48 ≤ x2) (hx2' : x2 ≤ 57)
    (hx3 : 48 ≤ x3) (hx3' : x3 ≤ 57) (hx4 : 48 ≤ x4) (hx4' : x4 ≤ 57)
    (hx5 : 48 ≤ x5) (hx5' : x5 ≤ 57) (hx6 : 48 ≤ x6) (hx6' : x6 ≤ 57)
    (hx7 : 48 ≤ x7) (hx7' : x7 ≤ 57) (hx8 : 48 ≤ x8) (hx8' : x8 ≤ 57)
    (hy1 : 48 ≤ y1) (hy1' : y1 ≤ 57) (hy2 : 48 ≤ y2) (hy2' : y2 ≤ 57)
    (hy3 : 48 ≤ y3) (hy3' : y3 ≤ 57) (hy4 : 48 ≤ y4) (hy4' : y4 ≤ 57)
    (hy5 : 48 ≤ y5) (hy5' : y5 ≤ 57) (hy6 : 48 ≤ y6) (hy6' : y6 ≤ 57)
    (hy7 : 48 ≤ y7) (hy7' : y7 ≤ 57) (hy8 : 48 ≤ y8) (hy8' : y8 ≤ 57) :
    (x1 < y1 ∨ x1 = y1 ∧ (x2 < y2 ∨ x2 = y2 ∧ (x3 < y3 ∨ x3 = y3 ∧ (x4 < y4
      ∨ x4 = y4 ∧ (x5 < y5 ∨ x5 = y5 ∧ (x6 < y6 ∨ x6 = y6 ∧ (x7 < y7
      ∨ x7 = y7 ∧ (x8 < y8 ∨ x8 = y8 ∧ False))))))))
    ↔ (x1 - 48) * 10000000 + (x2 - 48) * 1000000 + (x3 - 48) * 100000
        + (x4 - 48) * 10000 + (x5 - 48) * 1000 + (x6 - 48) * 100
        + (x7 - 48) * 10 + (x8 - 48)
      < (y1 - 48) * 10000000 + (y2 - 48) * 1000000 + (y3 - 48) * 100000
        + (y4 - 48) * 10000 + (y5 - 48) * 1000 + (y6 - 48) * 100
        + (y7 - 48) * 10 + (y8 - 48) := by
  constructor
  · intro h
    rcases h with h | ⟨e1, h | ⟨e2, h | ⟨e3, h | ⟨e4, h | ⟨e5, h | ⟨e6,
      h | ⟨e7, h | ⟨e8, ⟨⟩⟩⟩⟩⟩⟩⟩⟩⟩ <;> omega
  · intro h
    rcases Nat.lt_trichotomy x1 y1 with h1 | h1 | h1
    · exact Or.inl h1
    · refine Or.inr ⟨h1, ?_⟩
      rcases Nat.lt_trichotomy x2 y2 with h2 | h2 | h2
      · exact Or.inl h2
      · refine Or.inr ⟨h2, ?_⟩
        rcases Nat.lt_trichotomy x3 y3 with h3 | h3 | h3
        · exact Or.inl h3
        · refine Or.inr ⟨h3, ?_⟩
          rcases Nat.lt_trichotomy x4 y4 with h4 | h4 | h4
          · exact Or.inl h4
          · refine Or.inr ⟨h4, ?_⟩
            rcases Nat.lt_trichotomy x5 y5 with h5 | h5 | h5
            · exact Or.inl h5
            · refine Or.inr ⟨h5, ?_⟩
              rcases Nat.lt_trichotomy x6 y6 with h6 | h6 | h6
              · exact Or.inl h6
              · refine Or.inr ⟨h6, ?_⟩
                rcases Nat.lt_trichotomy x7 y7 with h7 | h7 | h7
                · exact Or.inl h7
                · refine Or.inr ⟨h7, ?_⟩
                  rcases Nat.lt_trichotomy x8 y8 with h8 | h8 | h8
                  · exact Or.inl h8
                  · exfalso
                    omega
                  · exfalso
                    omega
                · exfalso
                  omega
              · exfalso
                omega
            · exfalso
              omega
          · exfalso
            omega
        · exfalso
          omega
      · exfalso
        omega
    · exfalso
      omega

theorem iso_ne_empty (s : String) (h : isISODate s = true) : s ≠ "" := by
  intro he
  rw [he] at h
  exact absurd h (by decide)

/-- On zero-padded ISO dates, the lexicographic string order agrees
with the chronological order of the `YYYYMMDD` keys. -/
theorem isoDate_lt_iff (a b : String) (ha : isISODate a = true)
    (hb : isISODate b = true) : a < b ↔ dateVal a < dateVal b := by
  rw [String.lt_iff_toList_lt]
  show a.data < b.data ↔ _
  unfold isISODate at ha hb
  split at ha
  case h_2 => simp at ha
  case h_1 ya1 ya2 ya3 ya4 ca1 ma1 ma2 ca2 da1 da2 heqa =>
    split at hb
    case h_2 => simp at hb
    case h_1 yb1 yb2 yb3 yb4 cb1 mb1 mb2 cb2 db1 db2 heqb =>
      simp only [Bool.and_eq_true, beq_iff_eq] at ha hb
      obtain ⟨⟨⟨⟨⟨⟨⟨⟨⟨hya1, hya2⟩, hya3⟩, hya4⟩, hca1⟩, hma1⟩, hma2⟩, hca2⟩,
        hda1⟩, hda2⟩ := ha
      obtain ⟨⟨⟨⟨⟨⟨⟨⟨⟨hyb1, hyb2⟩, hyb3⟩, hyb4⟩, hcb1⟩, hmb1⟩, hmb2⟩, hcb2⟩,
        hdb1⟩, hdb2⟩ := hb
      subst hca1 hca2 hcb1 hcb2
      have hva : dateVal a
          = (ya1.toNat - 48) * 10000000 + (ya2.toNat - 48) * 1000000
            + (ya3.toNat - 48) * 100000 + (ya4.toNat - 48) * 10000
            + (ma1.toNat - 48) * 1000 + (ma2.toNat - 48) * 100
            + (da1.toNat - 48) * 10 + (da2.toNat - 48) := by
        unfold dateVal
        rw [heqa]
        rfl
      have hvb : dateVal b
          = (yb1.toNat - 48) * 10000000 + (yb2.toNat - 48) * 1000000
            + (yb3.toNat - 48) * 100000 + (yb4.toNat - 48) * 10000
            + (mb1.toNat - 48) * 1000 + (mb2.toNat - 48) * 100
            + (db1.toNat - 48) * 10 + (db2.toNat - 48) := by
        unfold dateVal
        rw [heqb]
        rfl
      rw [heqa, heqb, hva, hvb]
      simp only [lex_cons_iff, lt_self_iff_false, false_or, true_and,
        and_true, eq_self_iff_true]
      simp only [char_lt_iff_toNat, char_eq_iff_toNat]
      obtain ⟨b1, b1'⟩ := isDigit_toNat_bounds ya1 hya1
      obtain ⟨b2, b2'⟩ := isDigit_toNat_bounds ya2 hya2
      obtain ⟨b3, b3'⟩ := isDigit_toNat_bounds ya3 hya3
      obtain ⟨b4, b4'⟩ := isDigit_toNat_bounds ya4 hya4
      obtain ⟨b5, b5'⟩ := isDigit_toNat_bounds ma1 hma1
      obtain ⟨b6, b6'⟩ := isDigit_toNat_bounds ma2 hma2
      obtain ⟨b7, b7'⟩ := isDigit_toNat_bounds da1 hda1
      obtain ⟨b8, b8'⟩ := isDigit_toNat_bounds da2 hda2
      obtain ⟨c1, c1'⟩ := isDigit_toNat_bounds yb1 hyb1
      obtain ⟨c2, c2'⟩ := isDigit_toNat_bounds yb2 hyb2
      obtain ⟨c3, c3'⟩ := isDigit_toNat_bounds yb3 hyb3
      obtain ⟨c4, c4'⟩ := isDigit_toNat_bounds yb4 hyb4
      obtain ⟨c5, c5'⟩ := isDigit_toNat_bounds mb1 hmb1
      obtain ⟨c6, c6'⟩ := isDigit_toNat_bounds mb2 hmb2
      obtain ⟨c7, c7'⟩ := isDigit_toNat_bounds db1 hdb1
      obtain ⟨c8, c8'⟩ := isDigit_toNat_bounds db2 hdb2
      exact digits8_lex_iff _ _ _ _ _ _ _ _ _ _ _ _ _ _ _ _
        b1 b1' b2 b2' b3 b3' b4 b4' b5 b5' b6 b6' b7 b7' b8 b8'
        c1 c1' c2 c2' c3 c3' c4 c4' c5 c5' c6 c6' c7 c7' c8 c8' 

/-- The three sequential `show := false` tests collapse to one Boolean
conjunction of the negated tests. -/
theorem reportVisible_eq (df dfrom dto : String) (r : FloodReport) :
    reportVisible df dfrom dto r
      = (!(df != "all" && r.depth != some df)
        && !(dfrom != "" && jsLt r.date dfrom)
        && !(dto != "" && jsLt dto r.date)) := by
  unfold reportVisible
  cases h1 : (df != "all" && r.depth != some df) <;>
    cases h2 : (dfrom != "" && jsLt r.date dfrom) <;>
      cases h3 : (dto != "" && jsLt dto r.date) <;>
        simp [h1, h2, h3]

/-- C10: the date-range tests in `filterReports` compare `report.date`
to the bounds with the lexicographic string order (`jsLt` is exactly
`<` on `String`), which is total on arbitrary strings; on zero-padded
ISO `YYYY-MM-DD` inputs the strict order coincides with chronological
order of the `YYYYMMDD` keys, and the negated tests give the inclusive
chronological bounds. -/
theorem date_compare_lex_chronological (a b : String)
    (ha : isISODate a = true) (hb : isISODate b = true) :
    (∀ u v : String, jsLt u v = true ↔ u < v)
    ∧ (a < b ↔ dateVal a < dateVal b)
    ∧ (jsLt a b = false ↔ dateVal b ≤ dateVal a)
    ∧ (∀ r : FloodReport, r.date = a →
        (reportVisible "all" b "" r = true ↔ dateVal b ≤ dateVal a)
        ∧ (reportVisible "all" "" b r = true ↔ dateVal a ≤ dateVal b))
    ∧ (∀ u v : String, u < v ∨ u = v ∨ v < u) := by
  have hbne : (b != "") = true := bne_iff_ne.mpr (iso_ne_empty b hb)
  have h3 : jsLt a b = false ↔ dateVal b ≤ dateVal a := by
    rw [← Bool.not_eq_true, jsLt_iff_lt, isoDate_lt_iff a b ha hb]
    exact Nat.not_lt
  have h3' : jsLt b a = false ↔ dateVal a ≤ dateVal b := by
    rw [← Bool.not_eq_true, jsLt_iff_lt, isoDate_lt_iff b a hb ha]
    exact Nat.not_lt
  refine ⟨jsLt_iff_lt, isoDate_lt_iff a b ha hb, h3, ?_,
    fun u v => lt_trichotomy u v⟩
  intro r hr
  constructor
  · rw [reportVisible_eq, hr]
    simp only [bne_self_eq_false, Bool.false_and, Bool.not_false,
      Bool.true_and, Bool.and_true, hbne, Bool.not_eq_true']
    exact h3
  · rw [reportVisible_eq, hr]
    simp only [bne_self_eq_false, Bool.false_and, Bool.not_false,
      Bool.true_and, Bool.and_true, hbne, Bool.not_eq_true']
    exact h3'

theorem date_compare_lex_chronological_witness :
    isISODate "2025-06-14" = true
    ∧ isISODate "2025-06-15" = true
    ∧ ((∀ u v : String, jsLt u v = true ↔ u < v)
      ∧ ("2025-06-14" < "2025-06-15"
          ↔ dateVal "2025-06-14" < dateVal "2025-06-15")
      ∧ (jsLt "2025-06-14" "2025-06-15" = false
          ↔ dateVal "2025-06-15" ≤ dateVal "2025-06-14")
      ∧ (∀ r : FloodReport, r.date = "2025-06-14" →
          (reportVisible "all" "2025-06-15" "" r = true
            ↔ dateVal "2025-06-15" ≤ dateVal "2025-06-14")
          ∧ (reportVisible "all" "" "2025-06-15" r = true
            ↔ dateVal "2025-06-14" ≤ dateVal "2025-06-15"))
      ∧ (∀ u v : String, u < v ∨ u = v ∨ v < u)) :=
  ⟨by decide, by decide,
    date_compare_lex_chronological "2025-06-14" "2025-06-15"
      (by decide) (by decide)⟩

end FloodMap
